import Mathlib

/-!
# Verification of the darth-infra configuration core

Shallow embedding of the configuration model, validator, text codec and
generation pipeline of the repository (files
`src/darth_infra/config/models.py`, `src/darth_infra/config/loader.py`,
`src/darth_infra/scaffold/generator.py`), together with theorems settling
the specification claims.

Modelling conventions:
* Python `dict` (insertion ordered) is modelled as `List (String × α)`;
  `dict.get` is `dictGet` (first matching key).
* Python `Optional[T]` is `Option T`; Python `int` is `Int`.
* Python truthiness on `Optional[str]` (`if svc.image:`) is `optStrTruthy`
  (false for `None` and for the empty string).
* `dataclass.__post_init__` mutates `self` in place and may raise.  It is
  modelled as `postInit : ProjectConfig → ProjectConfig × Option String`
  returning the (possibly partially) mutated structure together with the
  error message, if any: Python mutations performed before a raise persist
  on the caller's object, which the first component records faithfully.
* The external TOML reader (`tomllib`) is modelled by `tomlEval` on the
  structured line sequence produced by `dump_lines`; each `TomlLine`
  constructor corresponds one-for-one to a `lines.append(...)` in
  `dump_config`.  Text-level escaping (`_toml_escape`) composed with the
  reader's unescaping is the identity on string values and is therefore
  dropped at this structured level.
-/

/-- Enum `SecretSource` from models.py. -/
inductive SecretSource where
  | generate
  | env
deriving DecidableEq, Repr

/-- The `.value` string of a `SecretSource` member. -/
def SecretSource.value : SecretSource → String
  | .generate => "generate"
  | .env => "env"

/-- The `SecretSource(s)` enum constructor: fails on unrecognized strings. -/
def SecretSource.fromString (s : String) : Except String SecretSource :=
  if s = "generate" then .ok .generate
  else if s = "env" then .ok .env
  else .error ("invalid SecretSource " ++ s)

/-- Enum `AlbMode` from models.py. -/
inductive AlbMode where
  | shared
  | dedicated
deriving DecidableEq, Repr

/-- The `.value` string of an `AlbMode` member. -/
def AlbMode.value : AlbMode → String
  | .shared => "shared"
  | .dedicated => "dedicated"

/-- The `AlbMode(s)` enum constructor. -/
def AlbMode.fromString (s : String) : Except String AlbMode :=
  if s = "shared" then .ok .shared
  else if s = "dedicated" then .ok .dedicated
  else .error ("invalid AlbMode " ++ s)

/-- Enum `LaunchType` from models.py. -/
inductive LaunchType where
  | fargate
  | ec2
deriving DecidableEq, Repr

/-- The `.value` string of a `LaunchType` member. -/
def LaunchType.value : LaunchType → String
  | .fargate => "fargate"
  | .ec2 => "ec2"

/-- The `LaunchType(s)` enum constructor. -/
def LaunchType.fromString (s : String) : Except String LaunchType :=
  if s = "fargate" then .ok .fargate
  else if s = "ec2" then .ok .ec2
  else .error ("invalid LaunchType " ++ s)

/-- Enum `Architecture` from models.py. -/
inductive Architecture where
  | X86_64
  | ARM64
deriving DecidableEq, Repr

/-- The `.value` string of an `Architecture` member. -/
def Architecture.value : Architecture → String
  | .X86_64 => "x86_64"
  | .ARM64 => "arm64"

/-- The `Architecture(s)` enum constructor. -/
def Architecture.fromString (s : String) : Except String Architecture :=
  if s = "x86_64" then .ok .X86_64
  else if s = "arm64" then .ok .ARM64
  else .error ("invalid Architecture " ++ s)

/-- `_ARM_PREFIXES` from models.py: Graviton / ARM-based instance type
family prefixes (kept in source order). -/
def _ARM_PREFIXES : List String :=
  ["a1", "t4g", "m6g", "m6gd", "m7g", "m7gd", "c6g", "c6gd", "c6gn",
   "c7g", "c7gd", "c7gn", "r6g", "r6gd", "r7g", "r7gd", "x2gd", "im4gn",
   "is4gen", "g5g", "hpc7g"]

/-- The family prefix of an instance type: `instance_type.split(".")[0]`,
the text before the first dot (the whole string when it has no dot). -/
def familyPrefix (instance_type : String) : String :=
  String.mk (instance_type.toList.takeWhile (fun c => c ≠ '.'))

/-- `detect_architecture` from models.py. -/
def detect_architecture (instance_type : String) : Architecture :=
  if _ARM_PREFIXES.contains (familyPrefix instance_type) then Architecture.ARM64
  else Architecture.X86_64

/-- `SecretConfig` from models.py, with the dataclass field defaults. -/
structure SecretConfig where
  name : String
  source : SecretSource := SecretSource.generate
  length : Int := 50
  generate_once : Bool := true
deriving DecidableEq, Repr

/-- `S3BucketConfig` from models.py. -/
structure S3BucketConfig where
  name : String
  public_read : Bool := false
  cloudfront : Bool := false
  cors : Bool := false
deriving DecidableEq, Repr

/-- `RdsConfig` from models.py. -/
structure RdsConfig where
  database_name : String
  expose_to : List String := []
  instance_type : String := "t4g.micro"
  allocated_storage_gb : Int := 20
  engine_version : String := "15"
  backup_retention_days : Int := 7
deriving DecidableEq, Repr

/-- `UlimitConfig` from models.py. -/
structure UlimitConfig where
  name : String
  soft_limit : Int
  hard_limit : Int
deriving DecidableEq, Repr

/-- `EbsVolumeConfig` from models.py. -/
structure EbsVolumeConfig where
  name : String
  size_gb : Int
  mount_path : String
  device_name : String := "/dev/xvdf"
  volume_type : String := "gp3"
  filesystem_type : String := "ext4"
deriving DecidableEq, Repr

/-- `AlbConfig` from models.py. -/
structure AlbConfig where
  mode : AlbMode := AlbMode.shared
  shared_alb_name : String := ""
  certificate_arn : Option String := none
deriving DecidableEq, Repr

/-- `ServiceConfig` from models.py, with the dataclass field defaults
(note the dataclass default for `port` is `8000`; the TOML parser passes
an explicit `None` when the key is absent). -/
structure ServiceConfig where
  name : String
  dockerfile : String := "Dockerfile"
  build_context : String := "."
  image : Option String := none
  port : Option Int := some 8000
  health_check_path : String := "/health"
  cpu : Int := 256
  memory_mib : Int := 512
  desired_count : Int := 1
  command : Option String := none
  domain : Option String := none
  secrets : List String := []
  s3_access : List String := []
  environment_variables : List (String × String) := []
  ulimits : List UlimitConfig := []
  enable_exec : Bool := true
  launch_type : LaunchType := LaunchType.fargate
  ec2_instance_type : Option String := none
  architecture : Option Architecture := none
  user_data_script : Option String := none
  ebs_volumes : List EbsVolumeConfig := []
  enable_service_discovery : Bool := false
deriving DecidableEq, Repr

/-- `EnvironmentOverride` from models.py. -/
structure EnvironmentOverride where
  domain_overrides : List (String × String) := []
  instance_type_override : Option String := none
  ec2_instance_type_override : List (String × String) := []
deriving DecidableEq, Repr

/-- `ProjectConfig` from models.py (fields only; the `__post_init__`
validator is `postInit` below). -/
structure ProjectConfig where
  project_name : String
  services : List ServiceConfig
  environments : List String := ["prod"]
  aws_region : String := "us-east-1"
  vpc_name : String := "artshumrc-prod-standard"
  rds : Option RdsConfig := none
  s3_buckets : List S3BucketConfig := []
  alb : AlbConfig := {}
  secrets : List SecretConfig := []
  environment_overrides : List (String × EnvironmentOverride) := []
  tags : List (String × String) := []
deriving DecidableEq, Repr

/-- Python `dict.get k` on an insertion-ordered dict modelled as an
association list: first entry with the given key. -/
def dictGet {α : Type} (l : List (String × α)) (k : String) : Option α :=
  (l.find? (fun kv => kv.1 == k)).map (fun kv => kv.2)

/-- Python truthiness of an `Optional[str]`: `None` and `""` are falsy. -/
def optStrTruthy : Option String → Bool
  | none => false
  | some s => !(s == "")

/-- Lines 288-290 of models.py: if `environments[0] != "prod"`, remove the
first occurrence of `"prod"` and insert it at index 0 (only reached when
`"prod"` is present, hence the list is nonempty and `head?` models
`[0]`). -/
def normalizeProd (es : List String) : List String :=
  if es.head? = some "prod" then es else "prod" :: es.erase "prod"

/-- One iteration of the per-service loop of `__post_init__`
(models.py lines 296-314): the EC2-needs-instance-type check, the
Fargate-excludes-EBS check, then architecture auto-detection.  Returns the
(possibly updated) service, or the error raised. -/
def procService (svc : ServiceConfig) : Except String ServiceConfig :=
  if svc.launch_type = LaunchType.ec2 ∧ ¬ optStrTruthy svc.ec2_instance_type then
    .error ("Service " ++ svc.name ++
      " uses EC2 launch type but has no ec2_instance_type configured")
  else if svc.launch_type = LaunchType.fargate ∧ svc.ebs_volumes ≠ [] then
    .error ("Service " ++ svc.name ++
      " uses Fargate launch type but has ebs_volumes configured (EBS is EC2-only)")
  else if svc.launch_type = LaunchType.ec2 ∧ optStrTruthy svc.ec2_instance_type
      ∧ svc.architecture = none then
    .ok { svc with
          architecture := some (detect_architecture (svc.ec2_instance_type.getD "")) }
  else .ok svc

/-- The per-service loop of `__post_init__`.  On an error at some service,
the services already processed keep their mutation (architecture filled
in) while the failing service and the rest are untouched — this mirrors
Python's in-place mutation up to the raise. -/
def serviceLoop : List ServiceConfig → List ServiceConfig × Option String
  | [] => ([], none)
  | s :: rest =>
    match procService s with
    | .error e => (s :: rest, some e)
    | .ok s' =>
      let r := serviceLoop rest
      (s' :: r.1, r.2)

/-- models.py lines 320-325: every `rds.expose_to` entry must name an
existing service (`if self.rds:` — a dataclass instance is always
truthy). -/
def checkExposeTo (rds : Option RdsConfig) (service_names : List String) :
    Option String :=
  match rds with
  | none => none
  | some r =>
    match r.expose_to.find? (fun n => !(service_names.contains n)) with
    | some n => some ("RDS expose_to references unknown service " ++ n)
    | none => none

/-- models.py lines 327-332: a generated secret must have
`generate_once = true`. -/
def checkSecretsOnce (secrets : List SecretConfig) : Option String :=
  match secrets.find?
      (fun s => decide (s.source = SecretSource.generate) && !s.generate_once) with
  | some s => some ("Secret " ++ s.name ++
      " sets generate_once=false, which is not supported")
  | none => none

/-- models.py lines 334-345: per service, first every `s3_access` entry
must name an existing bucket, then every `secrets` entry must name an
existing secret. -/
def checkSvcRefs (svcs : List ServiceConfig)
    (bucket_names secret_names : List String) : Option String :=
  match svcs with
  | [] => none
  | s :: rest =>
    match s.s3_access.find? (fun b => !(bucket_names.contains b)) with
    | some b => some ("Service " ++ s.name ++ " references unknown S3 bucket " ++ b)
    | none =>
      match s.secrets.find? (fun n => !(secret_names.contains n)) with
      | some n => some ("Service " ++ s.name ++ " references unknown secret " ++ n)
      | none => checkSvcRefs rest bucket_names secret_names

/-- `ProjectConfig.__post_init__` (models.py lines 285-345), as a function
from the freshly-assembled structure to the mutated structure plus the
raised error, if any.  The mutation order of the source is kept: the
environments reorder happens first, then the service loop (with its
architecture mutations), then the remaining pure checks. -/
def postInit (p : ProjectConfig) : ProjectConfig × Option String :=
  if "prod" ∉ p.environments then
    (p, some "prod must be in the environments list")
  else
    let p1 : ProjectConfig := { p with environments := normalizeProd p.environments }
    let service_names := p1.services.map (fun s => s.name)
    if ¬ service_names.Nodup then (p1, some "Service names must be unique")
    else
      match serviceLoop p1.services with
      | (svcs, some e) => ({ p1 with services := svcs }, some e)
      | (svcs, none) =>
        let p2 : ProjectConfig := { p1 with services := svcs }
        let bucket_names := p2.s3_buckets.map (fun b => b.name)
        if ¬ bucket_names.Nodup then (p2, some "S3 bucket names must be unique")
        else
          match checkExposeTo p2.rds service_names with
          | some e => (p2, some e)
          | none =>
            match checkSecretsOnce p2.secrets with
            | some e => (p2, some e)
            | none =>
              match checkSvcRefs p2.services bucket_names
                  (p2.secrets.map (fun s => s.name)) with
              | some e => (p2, some e)
              | none => (p2, none)

/-- `ProjectConfig.get_domain_for_service` (models.py lines 347-360).
`next((s for s in self.services if s.name == service_name), None)` is
`find?`; `overrides and service_name in overrides.domain_overrides`
collapses to the bound lookup because a dataclass instance is always
truthy. -/
def get_domain_for_service (p : ProjectConfig) (service_name env : String) :
    Option String :=
  match p.services.find? (fun s => s.name == service_name) with
  | none => none
  | some svc =>
    match svc.domain with
    | none => none
    | some d =>
      match (dictGet p.environment_overrides env).bind
          (fun ov => dictGet ov.domain_overrides service_name) with
      | some dOv => some dOv
      | none => if env == "prod" then some d else some (env ++ "-" ++ d)

/-- A value of the parsed TOML document, as produced by the external
`tomllib` reader: the shapes that can occur in a `darth-infra.toml`. -/
inductive RawVal where
  | str (s : String)
  | int (n : Int)
  | bool (b : Bool)
  | strList (l : List String)
  | table (t : List (String × RawVal))
  | arrayTable (ts : List (List (String × RawVal)))

/-- A TOML table: an insertion-ordered dict. -/
abbrev RawTable := List (String × RawVal)

/-- Assign a key in a table: replace an existing entry in place, else
append (dict assignment semantics). -/
def tableSet : RawTable → String → RawVal → RawTable
  | [], k, v => [(k, v)]
  | (k', v') :: rest, k, v =>
    if k' = k then (k, v) :: rest else (k', v') :: tableSet rest k v

/-- Apply `f` to the sub-table reached by descending along `path`,
creating missing intermediate tables, and descending into the last
element of an array of tables (standard TOML dotted-header semantics).
`none` signals a malformed document. -/
def navUpd (f : RawTable → Option RawTable) :
    RawTable → List String → Option RawTable
  | t, [] => f t
  | t, k :: ks =>
    match dictGet t k with
    | none => (navUpd f [] ks).map (fun sub => tableSet t k (.table sub))
    | some (.table sub) => (navUpd f sub ks).map (fun sub' => tableSet t k (.table sub'))
    | some (.arrayTable ts) =>
      match ts.getLast? with
      | some last =>
        (navUpd f last ks).map
          (fun last' => tableSet t k (.arrayTable (ts.dropLast ++ [last'])))
      | none => none
    | some _ => none

/-- A TOML value as written by `dump_config` on a `key = value` line. -/
inductive TomlVal where
  | str (s : String)
  | int (n : Int)
  | bool (b : Bool)
  | strList (l : List String)
  | inlineStrTable (t : List (String × String))

/-- One line appended by `dump_config`.  `header p` is `[a.b]`,
`arrayHeader p` is `[[a.b]]`, `keyval` covers both bare and quoted keys
(the quoting of tag keys is a text-level detail that the TOML reader
undoes). -/
inductive TomlLine where
  | comment (s : String)
  | blank
  | header (path : List String)
  | arrayHeader (path : List String)
  | keyval (key : String) (v : TomlVal)

/-- The document representation of a written value. -/
def TomlVal.toRaw : TomlVal → RawVal
  | .str s => .str s
  | .int n => .int n
  | .bool b => .bool b
  | .strList l => .strList l
  | .inlineStrTable t => .table (t.map (fun kv => (kv.1, RawVal.str kv.2)))

/-- One step of the TOML reader: the document so far, the path of the
table currently open, and the next line. -/
def tomlEvalLine (st : RawTable × List String) (line : TomlLine) :
    Option (RawTable × List String) :=
  match line with
  | .comment _ => some st
  | .blank => some st
  | .header p => (navUpd (fun t => some t) st.1 p).map (fun doc => (doc, p))
  | .arrayHeader p =>
    match p.getLast? with
    | none => none
    | some last =>
      (navUpd
        (fun t =>
          match dictGet t last with
          | none => some (tableSet t last (.arrayTable [[]]))
          | some (.arrayTable ts) => some (tableSet t last (.arrayTable (ts ++ [[]])))
          | some _ => none)
        st.1 p.dropLast).map (fun doc => (doc, p))
  | .keyval k v =>
    (navUpd (fun t => some (tableSet t k v.toRaw)) st.1 st.2).map
      (fun doc => (doc, st.2))

/-- The external TOML reader on the whole line sequence. -/
def tomlEval (lines : List TomlLine) : Option RawTable :=
  (lines.foldlM tomlEvalLine (([] : RawTable), ([] : List String))).map
    (fun st => st.1)

/-- `raw[k]` where a string is expected: missing key is a KeyError.
(The Python parser performs no type check; on documents produced by
`dump_config` the stored value always has the expected shape, so a
mismatch is modelled as a parse error.) -/
def getStrReq (t : RawTable) (k : String) : Except String String :=
  match dictGet t k with
  | some (.str s) => .ok s
  | some _ => .error ("unexpected type for key " ++ k)
  | none => .error ("missing required key " ++ k)

/-- `raw.get(k)` where an optional string is expected. -/
def getStrOpt (t : RawTable) (k : String) : Except String (Option String) :=
  match dictGet t k with
  | none => .ok none
  | some (.str s) => .ok (some s)
  | some _ => .error ("unexpected type for key " ++ k)

/-- `raw.get(k, d)` where a string is expected. -/
def getStrD (t : RawTable) (k d : String) : Except String String :=
  match dictGet t k with
  | none => .ok d
  | some (.str s) => .ok s
  | some _ => .error ("unexpected type for key " ++ k)

/-- `raw[k]` where an int is expected. -/
def getIntReq (t : RawTable) (k : String) : Except String Int :=
  match dictGet t k with
  | some (.int n) => .ok n
  | some _ => .error ("unexpected type for key " ++ k)
  | none => .error ("missing required key " ++ k)

/-- `raw.get(k)` where an optional int is expected. -/
def getIntOpt (t : RawTable) (k : String) : Except String (Option Int) :=
  match dictGet t k with
  | none => .ok none
  | some (.int n) => .ok (some n)
  | some _ => .error ("unexpected type for key " ++ k)

/-- `raw.get(k, d)` where an int is expected. -/
def getIntD (t : RawTable) (k : String) (d : Int) : Except String Int :=
  match dictGet t k with
  | none => .ok d
  | some (.int n) => .ok n
  | some _ => .error ("unexpected type for key " ++ k)

/-- `raw.get(k, d)` where a bool is expected. -/
def getBoolD (t : RawTable) (k : String) (d : Bool) : Except String Bool :=
  match dictGet t k with
  | none => .ok d
  | some (.bool b) => .ok b
  | some _ => .error ("unexpected type for key " ++ k)

/-- `raw.get(k, [])` where a list of strings is expected. -/
def getStrListD (t : RawTable) (k : String) : Except String (List String) :=
  match dictGet t k with
  | none => .ok []
  | some (.strList l) => .ok l
  | some _ => .error ("unexpected type for key " ++ k)

/-- `raw.get(k, {})` where a table of strings is expected. -/
def getStrTableD (t : RawTable) (k : String) :
    Except String (List (String × String)) :=
  match dictGet t k with
  | none => .ok []
  | some (.table sub) =>
    sub.mapM (fun kv =>
      match kv.2 with
      | .str s => Except.ok (kv.1, s)
      | _ => Except.error ("unexpected type for key " ++ kv.1))
  | some _ => .error ("unexpected type for key " ++ k)

/-- `raw.get(k, [])` where an array of tables is expected. -/
def getArrayTableD (t : RawTable) (k : String) :
    Except String (List RawTable) :=
  match dictGet t k with
  | none => .ok []
  | some (.arrayTable ts) => .ok ts
  | some _ => .error ("unexpected type for key " ++ k)

/-- `raw.get(k, {})` where a table is expected. -/
def getTableD (t : RawTable) (k : String) : Except String RawTable :=
  match dictGet t k with
  | none => .ok []
  | some (.table sub) => .ok sub
  | some _ => .error ("unexpected type for key " ++ k)

/-- `Architecture(arch_str) if arch_str else None` from `_parse_service`:
string truthiness, so the empty string also yields `None`. -/
def parseArchField (arch_str : Option String) :
    Except String (Option Architecture) :=
  if optStrTruthy arch_str then
    (Architecture.fromString (arch_str.getD "")).map some
  else pure none

/-- `_parse_service` (loader.py lines 98-148).  `raw.get("port")` is
passed through unchanged, so an absent `port` key yields `None`, not the
dataclass default `8000`. -/
def _parse_service (raw : RawTable) : Except String ServiceConfig := do
  let port ← getIntOpt raw "port"
  let launch_type_str ← getStrD raw "launch_type" "fargate"
  let ebs_raw ← getArrayTableD raw "ebs_volumes"
  let ebs_volumes ← ebs_raw.mapM (fun v => do
    let name ← getStrReq v "name"
    let size_gb ← getIntReq v "size_gb"
    let mount_path ← getStrReq v "mount_path"
    let device_name ← getStrD v "device_name" "/dev/xvdf"
    let volume_type ← getStrD v "volume_type" "gp3"
    let filesystem_type ← getStrD v "filesystem_type" "ext4"
    pure (⟨name, size_gb, mount_path, device_name, volume_type,
           filesystem_type⟩ : EbsVolumeConfig))
  let ulimits_raw ← getArrayTableD raw "ulimits"
  let ulimits ← ulimits_raw.mapM (fun u => do
    let name ← getStrReq u "name"
    let soft_limit ← getIntReq u "soft_limit"
    let hard_limit ← getIntReq u "hard_limit"
    pure (⟨name, soft_limit, hard_limit⟩ : UlimitConfig))
  let arch_str ← getStrOpt raw "architecture"
  let architecture ← parseArchField arch_str
  let name ← getStrReq raw "name"
  let dockerfile ← getStrD raw "dockerfile" "Dockerfile"
  let build_context ← getStrD raw "build_context" "."
  let image ← getStrOpt raw "image"
  let health_check_path ← getStrD raw "health_check_path" "/health"
  let cpu ← getIntD raw "cpu" 256
  let memory_mib ← getIntD raw "memory_mib" 512
  let desired_count ← getIntD raw "desired_count" 1
  let command ← getStrOpt raw "command"
  let domain ← getStrOpt raw "domain"
  let secrets ← getStrListD raw "secrets"
  let s3_access ← getStrListD raw "s3_access"
  let environment_variables ← getStrTableD raw "environment_variables"
  let enable_exec ← getBoolD raw "enable_exec" true
  let launch_type ← LaunchType.fromString launch_type_str
  let ec2_instance_type ← getStrOpt raw "ec2_instance_type"
  let user_data_script ← getStrOpt raw "user_data_script"
  let enable_service_discovery ← getBoolD raw "enable_service_discovery" false
  pure { name, dockerfile, build_context, image, port, health_check_path,
         cpu, memory_mib, desired_count, command, domain, secrets,
         s3_access, environment_variables, ulimits, enable_exec,
         launch_type, ec2_instance_type, architecture, user_data_script,
         ebs_volumes, enable_service_discovery }

/-- `_parse_rds` (loader.py lines 151-159). -/
def _parse_rds (raw : RawTable) : Except String RdsConfig := do
  let database_name ← getStrReq raw "database_name"
  let instance_type ← getStrD raw "instance_type" "t4g.micro"
  let allocated_storage_gb ← getIntD raw "allocated_storage_gb" 20
  let expose_to ← getStrListD raw "expose_to"
  let engine_version ← getStrD raw "engine_version" "15"
  let backup_retention_days ← getIntD raw "backup_retention_days" 7
  pure { database_name, expose_to, instance_type, allocated_storage_gb,
         engine_version, backup_retention_days }

/-- `_parse_s3` (loader.py lines 162-168). -/
def _parse_s3 (raw : RawTable) : Except String S3BucketConfig := do
  let name ← getStrReq raw "name"
  let public_read ← getBoolD raw "public_read" false
  let cloudfront ← getBoolD raw "cloudfront" false
  let cors ← getBoolD raw "cors" false
  pure { name, public_read, cloudfront, cors }

/-- `_parse_alb` (loader.py lines 171-177). -/
def _parse_alb (raw : RawTable) : Except String AlbConfig := do
  let mode_str ← getStrD raw "mode" "shared"
  let mode ← AlbMode.fromString mode_str
  let shared_alb_name ← getStrD raw "shared_alb_name" ""
  let certificate_arn ← getStrOpt raw "certificate_arn"
  pure { mode, shared_alb_name, certificate_arn }

/-- `_parse_secret` (loader.py lines 180-187). -/
def _parse_secret (raw : RawTable) : Except String SecretConfig := do
  let source_str ← getStrD raw "source" "generate"
  let name ← getStrReq raw "name"
  let source ← SecretSource.fromString source_str
  let length ← getIntD raw "length" 50
  let generate_once ← getBoolD raw "generate_once" true
  pure { name, source, length, generate_once }

/-- `_parse_env_override` (loader.py lines 190-195). -/
def _parse_env_override (raw : RawTable) : Except String EnvironmentOverride := do
  let domain_overrides ← getStrTableD raw "domain_overrides"
  let instance_type_override ← getStrOpt raw "instance_type_override"
  let ec2_instance_type_override ← getStrTableD raw "ec2_instance_type_override"
  pure { domain_overrides, instance_type_override, ec2_instance_type_override }

/-- `_parse_project` (loader.py lines 63-95), up to but not including the
`ProjectConfig(...)` construction: assembles the field values. -/
def _parse_project_fields (raw : RawTable) : Except String ProjectConfig := do
  let project ← getTableD raw "project"
  let services_raw ← getArrayTableD raw "services"
  let rds_raw ← getTableD raw "rds"
  let s3_raw ← getArrayTableD raw "s3_buckets"
  let alb_raw ← getTableD raw "alb"
  let secrets_raw ← getArrayTableD raw "secrets"
  let env_overrides_raw ← getTableD raw "environments"
  let services ← services_raw.mapM _parse_service
  -- `_parse_rds(rds_raw) if rds_raw else None`: an empty dict is falsy.
  let rds ← if rds_raw.isEmpty then pure none else (_parse_rds rds_raw).map some
  let s3_buckets ← s3_raw.mapM _parse_s3
  let alb ← _parse_alb alb_raw
  let secrets ← secrets_raw.mapM _parse_secret
  -- `{name: _parse_env_override(data) for name, data in ... if isinstance(data, dict)}`
  let environment_overrides ←
    (env_overrides_raw.filterMap (fun kv =>
        match kv.2 with
        | .table sub => some (kv.1, sub)
        | _ => none)).mapM
      (fun kv => (_parse_env_override kv.2).map (fun ov => (kv.1, ov)))
  let project_name ← getStrReq project "name"
  let aws_region ← getStrD project "aws_region" "us-east-1"
  let vpc_name ← getStrD project "vpc_name" "artshumrc-prod-standard"
  let environments ←
    match dictGet project "environments" with
    | none => pure ["prod"]
    | some (.strList l) => pure l
    | some _ => .error "unexpected type for key environments"
  let tags ← getStrTableD project "tags"
  pure { project_name, services, environments, aws_region, vpc_name, rds,
         s3_buckets, alb, secrets, environment_overrides, tags }

/-- `_parse_project`: assemble the fields, then run the dataclass
constructor (`ProjectConfig(...)` triggers `__post_init__`; a raise there
propagates). -/
def _parse_project (raw : RawTable) : Except String ProjectConfig := do
  let p ← _parse_project_fields raw
  match postInit p with
  | (p', none) => pure p'
  | (_, some e) => .error e

/-- `_toml_escape` (loader.py lines 33-35). -/
def _toml_escape (value : String) : String :=
  (value.replace "\\" "\\\\").replace "\"" "\\\""

/-- `dump_config` (loader.py lines 198-328) at the structured line level:
each element corresponds to one `lines.append(...)` of the source, in
source order.  Conditional emission mirrors the source exactly, including
Python truthiness (`if svc.image:` skips both `None` and `""`;
`if svc.architecture:` emits for any member since both enum values are
non-empty strings; `if config.tags:` skips the empty dict). -/
def dump_lines (config : ProjectConfig) : List TomlLine :=
  [.comment "#:schema darth-infra.schema.json", .blank, .header ["project"],
   .keyval "name" (.str config.project_name),
   .keyval "aws_region" (.str config.aws_region),
   .keyval "vpc_name" (.str config.vpc_name),
   .keyval "environments" (.strList config.environments)]
  ++ (if config.tags.isEmpty then [] else
      [.blank, .header ["project", "tags"]]
      ++ config.tags.map (fun kv => .keyval kv.1 (.str kv.2)))
  ++ [.blank]
  ++ config.services.flatMap (fun svc =>
    [.arrayHeader ["services"],
     .keyval "name" (.str svc.name),
     .keyval "dockerfile" (.str svc.dockerfile),
     .keyval "build_context" (.str svc.build_context)]
    ++ (if optStrTruthy svc.image then
        [.keyval "image" (.str (svc.image.getD ""))] else [])
    ++ (match svc.port with
        | some p => [.keyval "port" (.int p)]
        | none => [.comment "# port not set — this is a background worker"])
    ++ [.keyval "health_check_path" (.str svc.health_check_path),
        .keyval "cpu" (.int svc.cpu),
        .keyval "memory_mib" (.int svc.memory_mib),
        .keyval "desired_count" (.int svc.desired_count)]
    ++ (if optStrTruthy svc.command then
        [.keyval "command" (.str (svc.command.getD ""))] else [])
    ++ (if optStrTruthy svc.domain then
        [.keyval "domain" (.str (svc.domain.getD ""))] else [])
    ++ [.keyval "launch_type" (.str svc.launch_type.value)]
    ++ (if optStrTruthy svc.ec2_instance_type then
        [.keyval "ec2_instance_type" (.str (svc.ec2_instance_type.getD ""))] else [])
    ++ (match svc.architecture with
        | some a => [.keyval "architecture" (.str a.value)]
        | none => [])
    ++ (if optStrTruthy svc.user_data_script then
        [.keyval "user_data_script" (.str (svc.user_data_script.getD ""))] else [])
    ++ (if svc.secrets.isEmpty then [] else
        [.keyval "secrets" (.strList svc.secrets)])
    ++ (if svc.s3_access.isEmpty then [] else
        [.keyval "s3_access" (.strList svc.s3_access)])
    ++ (if svc.environment_variables.isEmpty then [] else
        [.keyval "environment_variables" (.inlineStrTable svc.environment_variables)])
    ++ [.keyval "enable_exec" (.bool svc.enable_exec),
        .keyval "enable_service_discovery" (.bool svc.enable_service_discovery)]
    ++ svc.ulimits.flatMap (fun ul =>
        [.blank, .arrayHeader ["services", "ulimits"],
         .keyval "name" (.str ul.name),
         .keyval "soft_limit" (.int ul.soft_limit),
         .keyval "hard_limit" (.int ul.hard_limit)])
    ++ svc.ebs_volumes.flatMap (fun vol =>
        [.blank, .arrayHeader ["services", "ebs_volumes"],
         .keyval "name" (.str vol.name),
         .keyval "size_gb" (.int vol.size_gb),
         .keyval "mount_path" (.str vol.mount_path),
         .keyval "device_name" (.str vol.device_name),
         .keyval "volume_type" (.str vol.volume_type),
         .keyval "filesystem_type" (.str vol.filesystem_type)])
    ++ [.blank])
  ++ (match config.rds with
      | none => []
      | some r =>
        [.header ["rds"],
         .keyval "database_name" (.str r.database_name),
         .keyval "instance_type" (.str r.instance_type),
         .keyval "allocated_storage_gb" (.int r.allocated_storage_gb),
         .keyval "expose_to" (.strList r.expose_to),
         .keyval "engine_version" (.str r.engine_version),
         .keyval "backup_retention_days" (.int r.backup_retention_days),
         .blank])
  ++ config.s3_buckets.flatMap (fun bucket =>
      [.arrayHeader ["s3_buckets"],
       .keyval "name" (.str bucket.name),
       .keyval "public_read" (.bool bucket.public_read),
       .keyval "cloudfront" (.bool bucket.cloudfront),
       .keyval "cors" (.bool bucket.cors),
       .blank])
  ++ [.header ["alb"],
      .keyval "mode" (.str config.alb.mode.value),
      .keyval "shared_alb_name" (.str config.alb.shared_alb_name)]
  ++ (if optStrTruthy config.alb.certificate_arn then
      [.keyval "certificate_arn" (.str (config.alb.certificate_arn.getD ""))] else [])
  ++ [.blank]
  ++ config.secrets.flatMap (fun secret =>
      [.arrayHeader ["secrets"],
       .keyval "name" (.str secret.name),
       .keyval "source" (.str secret.source.value),
       .keyval "length" (.int secret.length),
       .keyval "generate_once" (.bool secret.generate_once),
       .blank])
  ++ config.environment_overrides.flatMap (fun kv =>
      [TomlLine.header ["environments", kv.1]]
      ++ (if kv.2.domain_overrides.isEmpty then [] else
          [.blank, .header ["environments", kv.1, "domain_overrides"]]
          ++ kv.2.domain_overrides.map (fun d => TomlLine.keyval d.1 (.str d.2)))
      ++ (if optStrTruthy kv.2.instance_type_override then
          [.keyval "instance_type_override"
            (.str (kv.2.instance_type_override.getD ""))] else [])
      ++ (if kv.2.ec2_instance_type_override.isEmpty then [] else
          [.blank, .header ["environments", kv.1, "ec2_instance_type_override"]]
          ++ kv.2.ec2_instance_type_override.map (fun d => TomlLine.keyval d.1 (.str d.2)))
      ++ [.blank])

/-- Text of one written value (the quoting performed inline by the
source f-strings). -/
def renderTomlVal : TomlVal → String
  | .str s => "\"" ++ s ++ "\""
  | .int n => toString n
  | .bool b => if b then "true" else "false"
  | .strList l =>
    "[" ++ String.intercalate ", " (l.map (fun s => "\"" ++ s ++ "\"")) ++ "]"
  | .inlineStrTable t =>
    "\x7b " ++ String.intercalate ", "
      (t.map (fun kv => "\"" ++ kv.1 ++ "\" = \"" ++ _toml_escape kv.2 ++ "\"")) ++
      " \x7d"

/-- Text of one line appended by `dump_config`. -/
def renderTomlLine : TomlLine → String
  | .comment s => s
  | .blank => ""
  | .header p => "[" ++ String.intercalate "." p ++ "]"
  | .arrayHeader p => "[[" ++ String.intercalate "." p ++ "]]"
  | .keyval k v => k ++ " = " ++ renderTomlVal v

/-- `dump_config`: `"\n".join(lines) + "\n"`. -/
def dump_config (config : ProjectConfig) : String :=
  String.intercalate "\n" ((dump_lines config).map renderTomlLine) ++ "\n"

/-- The Jinja2 rendering context built by `_build_context`
(generator.py lines 101-122). -/
structure Ctx where
  project_name : String
  aws_region : String
  vpc_name : String
  services : List ServiceConfig
  environments : List String
  has_rds : Bool
  has_s3 : Bool
  has_cloudfront : Bool
  has_ec2 : Bool
  has_ebs : Bool
  has_service_discovery : Bool
  rds : Option RdsConfig
  s3_buckets : List S3BucketConfig
  alb : AlbConfig
  secrets : List SecretConfig
  tags : List (String × String)

/-- `_build_context` (generator.py lines 101-122). -/
def _build_context (config : ProjectConfig) : Ctx :=
  { project_name := config.project_name
    aws_region := config.aws_region
    vpc_name := config.vpc_name
    services := config.services
    environments := config.environments
    has_rds := config.rds.isSome
    has_s3 := !config.s3_buckets.isEmpty
    has_cloudfront := config.s3_buckets.any (fun b => b.cloudfront)
    has_ec2 := config.services.any (fun s => decide (s.launch_type = LaunchType.ec2))
    has_ebs := config.services.any (fun s => !s.ebs_volumes.isEmpty)
    has_service_discovery := config.services.any (fun s => s.enable_service_discovery)
    rds := config.rds
    s3_buckets := config.s3_buckets
    alb := config.alb
    secrets := config.secrets
    tags := config.tags }

/-- `generate_project` (generator.py lines 15-98), as the list of
(relative output path, file content) pairs written, in write order.
The external collaborators are parameters: `render` is the template
engine (`_render` / `_render_construct` compose it with a fixed
template-name-to-path mapping), `schemaSrc` is the content of
`darth-infra.schema.json` next to the package when that file exists
(`schema_src.exists()`), and `scriptSrc us` is the content of the user
data script at `Path.cwd() / us` when that path is a file
(`src_script.is_file()`; a missing script is silently skipped).
Directory creation (`mkdir`) produces no file and is not modelled. -/
def generate_project (render : String → Ctx → String)
    (schemaSrc : Option String) (scriptSrc : String → Option String)
    (config : ProjectConfig) : List (String × String) :=
  let ctx := _build_context config
  [("app.py", render "app.py.j2" ctx),
   ("cdk.json", render "cdk.json.j2" ctx),
   ("pyproject.toml", render "pyproject.toml.j2" ctx),
   ("README.md", render "README.md.j2" ctx),
   ("darth-infra.toml", dump_config config)]
  ++ (match schemaSrc with
      | some content => [("darth-infra.schema.json", content)]
      | none => [])
  ++ [("stacks/__init__.py", render "stacks/__init__.py.j2" ctx),
      ("stacks/main_stack.py", render "stacks/main_stack.py.j2" ctx),
      ("stacks/constructs/__init__.py", render "stacks/constructs/__init__.py.j2" ctx),
      ("stacks/constructs/ecr_repository.py",
        render "stacks/constructs/ecr_repository.py.j2" ctx),
      ("stacks/constructs/ecs_service.py",
        render "stacks/constructs/ecs_service.py.j2" ctx),
      ("stacks/constructs/alb.py", render "stacks/constructs/alb.py.j2" ctx),
      ("stacks/constructs/secrets.py", render "stacks/constructs/secrets.py.j2" ctx)]
  ++ (if config.rds.isSome then
      [("stacks/constructs/rds_database.py",
        render "stacks/constructs/rds_database.py.j2" ctx)] else [])
  ++ (if config.s3_buckets.isEmpty then [] else
      [("stacks/constructs/s3_bucket.py",
        render "stacks/constructs/s3_bucket.py.j2" ctx)])
  ++ (if config.s3_buckets.any (fun b => b.cloudfront) then
      [("stacks/constructs/cloudfront_distribution.py",
        render "stacks/constructs/cloudfront_distribution.py.j2" ctx)] else [])
  ++ config.services.flatMap (fun svc =>
      match svc.user_data_script with
      | none => []
      | some us =>
        match scriptSrc us with
        | some content => [(us, content)]
        | none => [])

/-- The set of relative paths written by `generate_project`. -/
def genPaths (render : String → Ctx → String) (schemaSrc : Option String)
    (scriptSrc : String → Option String) (config : ProjectConfig) : List String :=
  (generate_project render schemaSrc scriptSrc config).map (fun f => f.1)

/-- Parse followed by the dataclass constructor, on the document obtained
by writing with `dump_config` and reading back with the TOML reader:
the round-trip `load_config` after a save. -/
def roundtrip (p : ProjectConfig) : Except String ProjectConfig :=
  match tomlEval (dump_lines p) with
  | some doc => _parse_project doc
  | none => .error "malformed TOML document"

/-- A raw document as the TOML reader returns it: one service with only a
name, one environment override carrying both a domain override and a
database instance-type override. -/
def raw0 : RawTable :=
  [("project", .table [("name", .str "demo"), ("environments", .strList ["prod"])]),
   ("services", .arrayTable [[("name", .str "api")]]),
   ("environments", .table
     [("dev", .table
       [("domain_overrides", .table [("api", .str "custom.example.com")]),
        ("instance_type_override", .str "t3.micro")])])]

/-- The validated project that parsing `raw0` produces: every field holds
the explicit value of one parse/default pass. -/
def pEx : ProjectConfig :=
  { project_name := "demo"
    services := [{ name := "api", port := none }]
    environments := ["prod"]
    environment_overrides :=
      [("dev",
        { domain_overrides := [("api", "custom.example.com")]
          instance_type_override := some "t3.micro" })] }

/-- What `roundtrip pEx` actually returns: the serialized
`instance_type_override` line lands inside the `domain_overrides` table,
because `dump_config` writes it after the
`[environments.dev.domain_overrides]` header. -/
def pExParsed : ProjectConfig :=
  { pEx with
    environment_overrides :=
      [("dev",
        { domain_overrides :=
            [("api", "custom.example.com"), ("instance_type_override", "t3.micro")]
          instance_type_override := none })] }

/-- A project whose environments list needs reordering and whose service
names collide: the duplicate-name check fails after the reorder already
happened. -/
def pC5 : ProjectConfig :=
  { project_name := "demo"
    services := [{ name := "web", port := none }, { name := "web", port := none }]
    environments := ["dev", "prod"] }

/-- A valid project whose input environments list contains a duplicate. -/
def pC9 : ProjectConfig :=
  { project_name := "demo"
    services := [{ name := "web", port := none }]
    environments := ["prod", "dev", "dev"] }

/-- A minimal valid project used to exercise the environments invariant
with an arbitrary environments list. -/
def baseProject : ProjectConfig :=
  { project_name := "demo"
    services := [{ name := "api", port := none }] }

/-- A project with one service that sets a port but no domain. -/
def c10proj (portv : Int) : ProjectConfig :=
  { project_name := "demo"
    services := [{ name := "api", port := some portv, domain := none }]
    environments := ["prod"] }

/-- A project with a service referencing a bucket that does not exist. -/
def pC8 : ProjectConfig :=
  { project_name := "demo"
    services := [{ name := "api", port := none, s3_access := ["missing-bucket"] }]
    environments := ["prod"] }

/-- A valid project without a database. -/
def p4 : ProjectConfig :=
  { project_name := "demo"
    services := [{ name := "api", port := none }]
    environments := ["prod"] }

/-- A database construct entry. -/
def db4 : RdsConfig := { database_name := "app" }

/-- A concrete template renderer instance (the engine is an external
collaborator; any function fits). -/
def render0 : String → Ctx → String := fun _ _ => ""

/-- A raw service entry that omits every optional field. -/
def rawSvcMin : RawTable := [("name", .str "web")]

/-- A project with a service carrying a base domain and a `dev` domain
override. -/
def pDom : ProjectConfig :=
  { project_name := "demo"
    services := [{ name := "api", domain := some "app.example.com" }]
    environments := ["prod", "dev", "stage"]
    environment_overrides :=
      [("dev", { domain_overrides := [("api", "custom.dev.example.com")] })] }

/-- Decidable equality of parse results. -/
instance {ε α : Type} [DecidableEq ε] [DecidableEq α] :
    DecidableEq (Except ε α) := fun a b =>
  match a, b with
  | .ok a, .ok b =>
    if h : a = b then isTrue (by rw [h]) else isFalse (by simp [h])
  | .error e, .error f =>
    if h : e = f then isTrue (by rw [h]) else isFalse (by simp [h])
  | .ok _, .error _ => isFalse (by simp)
  | .error _, .ok _ => isFalse (by simp)

/-- On a list containing `"prod"`, the reorder of `__post_init__` moves
the first `"prod"` to index 0 and keeps every other element in its
original relative order. -/
theorem normalizeProd_eq (es : List String) (h : "prod" ∈ es) :
    normalizeProd es = "prod" :: es.erase "prod" := by
  unfold normalizeProd
  split
  · rename_i hh
    cases es with
    | nil => cases h
    | cons a t =>
      simp only [List.head?_cons, Option.some.injEq] at hh
      subst hh
      simp
  · rfl

/-- Inversion of a successful `Except` bind. -/
theorem exceptBind_ok {ε α β : Type} (x : Except ε α) (f : α → Except ε β) (b : β)
    (h : (x >>= f) = Except.ok b) : ∃ a, x = Except.ok a ∧ f a = Except.ok b := by
  cases x with
  | error e => exact absurd h (by simp [Bind.bind, Except.bind])
  | ok a => exact ⟨a, rfl, h⟩

/-- C6: `detect_architecture` is a pure total function (a Lean function by
construction); for every instance-type string it inspects the family
prefix before the first dot and returns ARM64 exactly when that prefix is
in the static ARM-family set, X86_64 otherwise; in particular
`t4g.micro ↦ ARM64`, `t3.medium ↦ X86_64`, `c7g.large ↦ ARM64`. -/
theorem detect_architecture_spec :
    (∀ s : String,
      detect_architecture s = Architecture.ARM64 ↔ familyPrefix s ∈ _ARM_PREFIXES)
    ∧ (∀ s : String,
      detect_architecture s ≠ Architecture.ARM64 →
        detect_architecture s = Architecture.X86_64)
    ∧ detect_architecture "t4g.micro" = Architecture.ARM64
    ∧ detect_architecture "t3.medium" = Architecture.X86_64
    ∧ detect_architecture "c7g.large" = Architecture.ARM64 := by
  refine ⟨fun s => ?_, fun s => ?_, by decide, by decide, by decide⟩
  · unfold detect_architecture
    split
    · rename_i hc
      rw [List.elem_iff] at hc
      exact ⟨fun _ => hc, fun _ => rfl⟩
    · rename_i hc
      rw [List.elem_iff] at hc
      exact ⟨fun h => absurd h (by decide), fun h => absurd h hc⟩
  · unfold detect_architecture
    split
    · intro h; exact absurd rfl h
    · intro _; rfl

/-- C10: the validator never inspects `port` or `domain`: a project whose
only service sets a port but no domain is constructed without any
validation error (the port-implies-domain rule lives in the excluded
wizard layer only). -/
theorem port_without_domain_accepted (portv : Int) :
    ((c10proj portv).services.map (fun s => (s.port, s.domain)) =
      [(some portv, none)])
    ∧ postInit (c10proj portv) = (c10proj portv, none) :=
  ⟨rfl, rfl⟩

/-- C3 counterexample: a service entry that omits `port` parses to a
`ServiceConfig` whose port is `None`, not `8000` as the claim states. -/
theorem parse_service_port_cex :
    _parse_service rawSvcMin = Except.ok { name := "web", port := none } ∧
    ServiceConfig.port { name := "web", port := none } ≠ some 8000 :=
  ⟨rfl, by decide⟩

/-- C3 (amended): when a service entry omits a field the parse applies the
documented default, except `port`, which `raw.get("port")` leaves as
`None` (background worker): dockerfile `"Dockerfile"`, build context
`"."`, health path `"/health"`, cpu `256`, memory `512`, desired count
`1`, exec `true`, launch type fargate, service discovery `false`. -/
theorem parse_service_defaults (raw : RawTable) (s : ServiceConfig)
    (hok : _parse_service raw = Except.ok s)
    (hport : dictGet raw "port" = none)
    (hdf : dictGet raw "dockerfile" = none)
    (hbc : dictGet raw "build_context" = none)
    (hhp : dictGet raw "health_check_path" = none)
    (hcpu : dictGet raw "cpu" = none)
    (hmem : dictGet raw "memory_mib" = none)
    (hdc : dictGet raw "desired_count" = none)
    (hee : dictGet raw "enable_exec" = none)
    (hlt : dictGet raw "launch_type" = none)
    (hesd : dictGet raw "enable_service_discovery" = none) :
    s.port = none ∧ s.dockerfile = "Dockerfile" ∧ s.build_context = "." ∧
    s.health_check_path = "/health" ∧ s.cpu = 256 ∧ s.memory_mib = 512 ∧
    s.desired_count = 1 ∧ s.enable_exec = true ∧
    s.launch_type = LaunchType.fargate ∧ s.enable_service_discovery = false := by
  unfold _parse_service at hok
  obtain ⟨port, h1, hok⟩ := exceptBind_ok _ _ _ hok
  obtain ⟨lts, h2, hok⟩ := exceptBind_ok _ _ _ hok
  obtain ⟨ebsr, h3, hok⟩ := exceptBind_ok _ _ _ hok
  obtain ⟨ebs, h4, hok⟩ := exceptBind_ok _ _ _ hok
  obtain ⟨ulr, h5, hok⟩ := exceptBind_ok _ _ _ hok
  obtain ⟨ul, h6, hok⟩ := exceptBind_ok _ _ _ hok
  obtain ⟨archs, h7, hok⟩ := exceptBind_ok _ _ _ hok
  obtain ⟨arch, h8, hok⟩ := exceptBind_ok _ _ _ hok
  obtain ⟨nm, h9, hok⟩ := exceptBind_ok _ _ _ hok
  obtain ⟨df, h10, hok⟩ := exceptBind_ok _ _ _ hok
  obtain ⟨bc, h11, hok⟩ := exceptBind_ok _ _ _ hok
  obtain ⟨im, h12, hok⟩ := exceptBind_ok _ _ _ hok
  obtain ⟨hcp, h13, hok⟩ := exceptBind_ok _ _ _ hok
  obtain ⟨cpu, h14, hok⟩ := exceptBind_ok _ _ _ hok
  obtain ⟨mem, h15, hok⟩ := exceptBind_ok _ _ _ hok
  obtain ⟨dc, h16, hok⟩ := exceptBind_ok _ _ _ hok
  obtain ⟨cmd, h17, hok⟩ := exceptBind_ok _ _ _ hok
  obtain ⟨dom, h18, hok⟩ := exceptBind_ok _ _ _ hok
  obtain ⟨sec, h19, hok⟩ := exceptBind_ok _ _ _ hok
  obtain ⟨s3a, h20, hok⟩ := exceptBind_ok _ _ _ hok
  obtain ⟨ev, h21, hok⟩ := exceptBind_ok _ _ _ hok
  obtain ⟨ee, h22, hok⟩ := exceptBind_ok _ _ _ hok
  obtain ⟨lt, h23, hok⟩ := exceptBind_ok _ _ _ hok
  obtain ⟨e2, h24, hok⟩ := exceptBind_ok _ _ _ hok
  obtain ⟨uds, h25, hok⟩ := exceptBind_ok _ _ _ hok
  obtain ⟨esd, h26, hok⟩ := exceptBind_ok _ _ _ hok
  simp only [getIntOpt, hport, Except.ok.injEq] at h1
  simp only [getStrD, hlt, Except.ok.injEq] at h2
  simp only [getStrD, hdf, Except.ok.injEq] at h10
  simp only [getStrD, hbc, Except.ok.injEq] at h11
  simp only [getStrD, hhp, Except.ok.injEq] at h13
  simp only [getIntD, hcpu, Except.ok.injEq] at h14
  simp only [getIntD, hmem, Except.ok.injEq] at h15
  simp only [getIntD, hdc, Except.ok.injEq] at h16
  simp only [getBoolD, hee, Except.ok.injEq] at h22
  simp only [getBoolD, hesd, Except.ok.injEq] at h26
  subst h1 h2 h10 h11 h13 h14 h15 h16 h22 h26
  rw [show LaunchType.fromString "fargate" = Except.ok LaunchType.fargate from rfl]
    at h23
  simp only [Except.ok.injEq] at h23
  subst h23
  simp only [pure, Except.pure, Except.ok.injEq] at hok
  subst hok
  exact ⟨rfl, rfl, rfl, rfl, rfl, rfl, rfl, rfl, rfl, rfl⟩

/-- Witness for the amended C3 theorem at the minimal raw service entry. -/
theorem parse_service_defaults_witness :
    _parse_service rawSvcMin = Except.ok { name := "web", port := none } ∧
    (ServiceConfig.port { name := "web", port := none } = none ∧
     ServiceConfig.dockerfile { name := "web", port := none } = "Dockerfile" ∧
     ServiceConfig.build_context { name := "web", port := none } = "." ∧
     ServiceConfig.health_check_path { name := "web", port := none } = "/health" ∧
     ServiceConfig.cpu { name := "web", port := none } = 256 ∧
     ServiceConfig.memory_mib { name := "web", port := none } = 512 ∧
     ServiceConfig.desired_count { name := "web", port := none } = 1 ∧
     ServiceConfig.enable_exec { name := "web", port := none } = true ∧
     ServiceConfig.launch_type { name := "web", port := none } = LaunchType.fargate ∧
     ServiceConfig.enable_service_discovery { name := "web", port := none } = false) :=
  ⟨rfl, parse_service_defaults rawSvcMin { name := "web", port := none }
    rfl rfl rfl rfl rfl rfl rfl rfl rfl rfl rfl⟩

/-- C1: `raw0` parses to the validated project `pEx` (so `pEx` went
through one parse/default pass), yet writing `pEx` with `dump_config` and
reading it back yields `pExParsed`, in which the `dev` override has the
database instance-type override absorbed into its `domain_overrides`
table: `dump_config` emits the `instance_type_override` line after the
`[environments.dev.domain_overrides]` header, so the round-trip law
fails. -/
theorem dump_config_roundtrip_bug :
    _parse_project raw0 = Except.ok pEx ∧
    roundtrip pEx = Except.ok pExParsed ∧
    pExParsed ≠ pEx :=
  ⟨rfl, rfl, by decide⟩

/-- C5 counterexample: on a project whose environments list needs
reordering and whose service names collide, construction fails with the
duplicate-name error while the environments list has already been
reordered in place — the caller-supplied structure is not left
unchanged. -/
theorem postInit_not_atomic_cex :
    postInit pC5 =
      ({ pC5 with environments := ["prod", "dev"] },
       some "Service names must be unique")
    ∧ (["prod", "dev"] : List String) ≠ pC5.environments :=
  ⟨by decide, by decide⟩

/-- C9 counterexample: a project whose input environments list is
`["prod", "dev", "dev"]` is constructed successfully and keeps `"dev"`
twice — construction performs no deduplication. -/
theorem environments_not_dedup_cex :
    (postInit pC9).2 = none ∧ (postInit pC9).1.environments.count "dev" = 2 :=
  ⟨by decide, by decide⟩

/-- C2: for every environments list containing `"prod"`, construction of
the (otherwise valid) base project succeeds and yields `"prod"` at index 0
with all other names in their original relative order (`List.erase`
removes exactly the first `"prod"`); when `"prod"` is absent, construction
fails with the validation error. -/
theorem environments_prod_reorder (es : List String) :
    ("prod" ∈ es →
      postInit { baseProject with environments := es } =
        ({ baseProject with environments := "prod" :: es.erase "prod" }, none))
    ∧ ("prod" ∉ es →
      (postInit { baseProject with environments := es }).2 =
        some "prod must be in the environments list") := by
  constructor
  · intro h
    unfold postInit
    rw [if_neg (not_not_intro h)]
    rw [show ({ baseProject with environments := es } : ProjectConfig).environments
          = es from rfl]
    rw [normalizeProd_eq es h]
    rfl
  · intro h
    unfold postInit
    rw [if_pos h]

/-- Witness for C2 at `["stage", "prod"]` and `["stage"]`. -/
theorem environments_prod_reorder_witness :
    ("prod" ∈ (["stage", "prod"] : List String) ∧
      postInit { baseProject with environments := ["stage", "prod"] } =
        ({ baseProject with environments := ["prod", "stage"] }, none))
    ∧ ("prod" ∉ (["stage"] : List String) ∧
      (postInit { baseProject with environments := ["stage"] }).2 =
        some "prod must be in the environments list") :=
  ⟨⟨by decide, (environments_prod_reorder ["stage", "prod"]).1 (by decide)⟩,
   ⟨by decide, (environments_prod_reorder ["stage"]).2 (by decide)⟩⟩

/-- C5 (amended): construction is not atomic — the environments reorder
runs first, so when the (later) duplicate-service-name check fails, the
raise leaves the caller-supplied structure with its environments list
already reordered. -/
theorem postInit_reorder_persists_on_failure (p : ProjectConfig)
    (h1 : "prod" ∈ p.environments)
    (h2 : ¬ (p.services.map (fun s => s.name)).Nodup) :
    postInit p =
      ({ p with environments := "prod" :: p.environments.erase "prod" },
       some "Service names must be unique") := by
  unfold postInit
  rw [if_neg (not_not_intro h1), normalizeProd_eq p.environments h1]
  rw [if_pos h2]

/-- Witness for the amended C5 theorem at `pC5`. -/
theorem postInit_reorder_persists_on_failure_witness :
    "prod" ∈ pC5.environments ∧ ¬ (pC5.services.map (fun s => s.name)).Nodup ∧
    postInit pC5 =
      ({ pC5 with environments := "prod" :: pC5.environments.erase "prod" },
       some "Service names must be unique") :=
  ⟨by decide, by decide,
   postInit_reorder_persists_on_failure pC5 (by decide) (by decide)⟩

/-- C9 (amended): every successfully constructed project holds exactly the
input environments list with the first `"prod"` moved to index 0 — no
deduplication is performed. -/
theorem environments_no_dedup (p r : ProjectConfig) (h : postInit p = (r, none)) :
    r.environments = "prod" :: p.environments.erase "prod" := by
  unfold postInit at h
  by_cases h1 : "prod" ∈ p.environments
  · rw [if_neg (not_not_intro h1), normalizeProd_eq p.environments h1] at h
    simp only [] at h
    split at h
    · simp at h
    · split at h
      · simp at h
      · split at h
        · simp at h
        · split at h
          · simp at h
          · split at h
            · simp at h
            · split at h
              · simp at h
              · obtain ⟨hr, -⟩ := Prod.mk.injEq .. ▸ h
                exact congrArg ProjectConfig.environments hr.symm
  · rw [if_pos h1] at h
    simp at h

/-- Witness for the amended C9 theorem at `pC9`. -/
theorem environments_no_dedup_witness :
    (postInit pC9).1.environments = "prod" :: pC9.environments.erase "prod" :=
  environments_no_dedup pC9 (postInit pC9).1 (by decide)

/-- C7: domain resolution returns `none` when the named service is not
found or has no base domain; otherwise an environment override for that
service is returned verbatim (even for `"prod"`); otherwise `"prod"`
yields the base domain unmodified and any other environment yields the
base domain prefixed with `env ++ "-"`. -/
theorem get_domain_for_service_spec (p : ProjectConfig) (sname env : String) :
    (p.services.find? (fun s => s.name == sname) = none →
      get_domain_for_service p sname env = none)
    ∧ (∀ s, p.services.find? (fun s => s.name == sname) = some s →
        s.domain = none → get_domain_for_service p sname env = none)
    ∧ (∀ s d ov dOv, p.services.find? (fun s => s.name == sname) = some s →
        s.domain = some d →
        dictGet p.environment_overrides env = some ov →
        dictGet ov.domain_overrides sname = some dOv →
        get_domain_for_service p sname env = some dOv)
    ∧ (∀ s d, p.services.find? (fun s => s.name == sname) = some s →
        s.domain = some d →
        (dictGet p.environment_overrides env).bind
          (fun ov => dictGet ov.domain_overrides sname) = none →
        get_domain_for_service p sname env =
          (if env = "prod" then some d else some (env ++ "-" ++ d))) := by
  refine ⟨?_, ?_, ?_, ?_⟩
  · intro h
    simp [get_domain_for_service, h]
  · intro s hf hd
    simp [get_domain_for_service, hf, hd]
  · intro s d ov dOv hf hd hov hdov
    simp [get_domain_for_service, hf, hd, hov, hdov]
  · intro s d hf hd hnone
    simp only [get_domain_for_service, hf, hd, hnone]
    by_cases he : env = "prod" <;> simp [he]

/-- Witness for C7 at the spec example: override, prod and prefixed
cases. -/
theorem get_domain_for_service_spec_witness :
    get_domain_for_service pDom "api" "dev" = some "custom.dev.example.com" ∧
    get_domain_for_service pDom "api" "prod" = some "app.example.com" ∧
    get_domain_for_service pDom "api" "stage" = some "stage-app.example.com" := by
  refine ⟨?_, ?_, ?_⟩
  · exact (get_domain_for_service_spec pDom "api" "dev").2.2.1
      { name := "api", domain := some "app.example.com" } "app.example.com"
      { domain_overrides := [("api", "custom.dev.example.com")] }
      "custom.dev.example.com" (by decide) (by decide) (by decide) (by decide)
  · have := (get_domain_for_service_spec pDom "api" "prod").2.2.2
      { name := "api", domain := some "app.example.com" } "app.example.com"
      (by decide) (by decide) (by decide)
    simpa using this
  · have := (get_domain_for_service_spec pDom "api" "stage").2.2.2
      { name := "api", domain := some "app.example.com" } "app.example.com"
      (by decide) (by decide) (by decide)
    simpa using this

/-- A successful `procService` step only ever fills in the architecture
field: name, bucket references and secret references are untouched. -/
theorem procService_fields (s s' : ServiceConfig) (h : procService s = .ok s') :
    s'.name = s.name ∧ s'.s3_access = s.s3_access ∧ s'.secrets = s.secrets := by
  unfold procService at h
  split at h
  · cases h
  · split at h
    · cases h
    · split at h <;> (cases h; exact ⟨rfl, rfl, rfl⟩)

/-- The per-service loop preserves every name, bucket reference and secret
reference (also on the partially-processed list of a failing run). -/
theorem serviceLoop_fields (l : List ServiceConfig) :
    ((serviceLoop l).1).map (fun s => (s.name, s.s3_access, s.secrets)) =
      l.map (fun s => (s.name, s.s3_access, s.secrets)) := by
  induction l with
  | nil => rfl
  | cons s rest ih =>
    unfold serviceLoop
    cases hp : procService s with
    | error e => rfl
    | ok s' =>
      obtain ⟨h1, h2, h3⟩ := procService_fields s s' hp
      simp [h1, h2, h3, ih]

/-- When the bucket/secret reference check passes, every reference of
every service names an existing bucket or secret. -/
theorem checkSvcRefs_none (svcs : List ServiceConfig) (bn sn : List String)
    (h : checkSvcRefs svcs bn sn = none) :
    ∀ s ∈ svcs, (∀ b ∈ s.s3_access, b ∈ bn) ∧ (∀ n ∈ s.secrets, n ∈ sn) := by
  induction svcs with
  | nil => intro s hs; cases hs
  | cons a rest ih =>
    unfold checkSvcRefs at h
    split at h
    · cases h
    · rename_i hf1
      split at h
      · cases h
      · rename_i hf2
        intro s hs
        cases hs with
        | head =>
          constructor
          · intro b hb
            have := List.find?_eq_none.mp hf1 b hb
            simpa [List.elem_iff] using this
          · intro n hn
            have := List.find?_eq_none.mp hf2 n hn
            simpa [List.elem_iff] using this
        | tail _ hs' => exact ih h s hs'

/-- When the `expose_to` check passes, every entry names an existing
service. -/
theorem checkExposeTo_none (rds : Option RdsConfig) (sn : List String)
    (h : checkExposeTo rds sn = none) :
    ∀ r, rds = some r → ∀ n ∈ r.expose_to, n ∈ sn := by
  intro r hr n hn
  unfold checkExposeTo at h
  simp only [hr] at h
  split at h
  · cases h
  · rename_i hf
    have := List.find?_eq_none.mp hf n hn
    simpa [List.elem_iff] using this

/-- C8: whenever some cross-reference names a non-existent entity — an
`rds.expose_to` entry naming no service, a `s3_access` entry naming no
bucket, or a service `secrets` entry naming no secret — construction
fails with a validation error (the error raised may be an earlier check's
when one also fails, but construction never succeeds). -/
theorem crossref_rejection (p : ProjectConfig)
    (h : (∃ r, p.rds = some r ∧
            ∃ n ∈ r.expose_to, n ∉ p.services.map (fun s => s.name))
       ∨ (∃ s ∈ p.services, ∃ b ∈ s.s3_access,
            b ∉ p.s3_buckets.map (fun b => b.name))
       ∨ (∃ s ∈ p.services, ∃ n ∈ s.secrets,
            n ∉ p.secrets.map (fun s => s.name))) :
    (postInit p).2.isSome := by
  unfold postInit
  split
  · rfl
  · simp only []
    split
    · rfl
    · split
      · rfl
      · rename_i hloop
        split
        · rfl
        · split
          · rfl
          · rename_i hexp
            split
            · rfl
            · split
              · rfl
              · rename_i hrefs
                exfalso
                have hmapeq := serviceLoop_fields p.services
                rcases h with ⟨r, hr, n, hn, hnmem⟩ | ⟨s, hs, b, hb, hbmem⟩ |
                    ⟨s, hs, n, hn, hnmem⟩
                · exact hnmem (checkExposeTo_none _ _ hexp r hr n hn)
                · rw [hloop] at hmapeq
                  have hmem : (s.name, s.s3_access, s.secrets) ∈
                      p.services.map (fun s => (s.name, s.s3_access, s.secrets)) :=
                    List.mem_map_of_mem _ hs
                  rw [← hmapeq] at hmem
                  obtain ⟨s', hs', heq⟩ := List.mem_map.mp hmem
                  have h3 : s'.s3_access = s.s3_access :=
                    congrArg (fun t => t.2.1) heq
                  have hbn := (checkSvcRefs_none _ _ _ hrefs s' hs').1 b
                    (by rw [h3]; exact hb)
                  exact hbmem hbn
                · rw [hloop] at hmapeq
                  have hmem : (s.name, s.s3_access, s.secrets) ∈
                      p.services.map (fun s => (s.name, s.s3_access, s.secrets)) :=
                    List.mem_map_of_mem _ hs
                  rw [← hmapeq] at hmem
                  obtain ⟨s', hs', heq⟩ := List.mem_map.mp hmem
                  have h3 : s'.secrets = s.secrets :=
                    congrArg (fun t => t.2.2) heq
                  have hsn := (checkSvcRefs_none _ _ _ hrefs s' hs').2 n
                    (by rw [h3]; exact hn)
                  exact hnmem hsn

/-- Witness for C8 at a service listing `s3_access = ["missing-bucket"]`
with no bucket of that name. -/
theorem crossref_rejection_witness :
    (∃ s ∈ pC8.services, ∃ b ∈ s.s3_access,
        b ∉ pC8.s3_buckets.map (fun b => b.name)) ∧
    (postInit pC8).2.isSome :=
  ⟨by decide, crossref_rejection pC8 (Or.inr (Or.inl (by decide)))⟩

set_option maxRecDepth 8192 in
/-- C4 counterexample: the two outputs for `p4` with and without a
database both contain `darth-infra.toml`, and its content differs (the
one with a database carries the `[rds]` section) — so not every file
present in both outputs is byte-identical. -/
theorem generate_project_content_cex :
    ("darth-infra.toml", dump_config p4) ∈
        generate_project render0 none (fun _ => none) p4
    ∧ ("darth-infra.toml", dump_config { p4 with rds := some db4 }) ∈
        generate_project render0 none (fun _ => none) { p4 with rds := some db4 }
    ∧ dump_config { p4 with rds := some db4 } ≠ dump_config p4 := by
  refine ⟨?_, ?_, ?_⟩ <;> decide

/-- The boot-script copy block never writes one of the three conditional
construct paths when no service declares a boot script at such a path. -/
theorem script_block_no_construct (scriptSrc : String → Option String)
    (svcs : List ServiceConfig) (x : String)
    (hscripts : ∀ s ∈ svcs, s.user_data_script ≠ some x)
    (h : ∃ c, ∃ svc ∈ svcs, ((x, c) : String × String) ∈
        (match svc.user_data_script with
         | none => ([] : List (String × String))
         | some us =>
           match scriptSrc us with
           | some content => [(us, content)]
           | none => [])) : False := by
  obtain ⟨c, svc, hsvc, hmem⟩ := h
  cases ha : svc.user_data_script with
  | none => simp only [ha] at hmem; cases hmem
  | some us =>
    simp only [ha] at hmem
    cases hs : scriptSrc us with
    | none => simp only [hs] at hmem; cases hmem
    | some c2 =>
      simp only [hs, List.mem_singleton, Prod.mk.injEq] at hmem
      exact hscripts svc hsvc (by rw [ha, hmem.1])

/-- C4 (amended): for any renderer, schema source and script source, and
any project whose boot-script paths do not collide with the conditional
construct paths: the database construct path is emitted iff a database is
configured, the bucket construct path iff the bucket list is non-empty,
the CDN construct path iff some bucket sets the CDN flag; and for two
otherwise-identical projects differing only in the presence of one
database, the emitted path multisets differ in exactly the one additional
database construct file.  (Contents of files present in both outputs may
differ: at least `darth-infra.toml` gains the `[rds]` section, and the
rendering context changes — see the counterexample.) -/
theorem generate_project_conditional_emission (render : String → Ctx → String)
    (schemaSrc : Option String) (scriptSrc : String → Option String)
    (config : ProjectConfig) (db : RdsConfig)
    (hscripts : ∀ s ∈ config.services,
      s.user_data_script ≠ some "stacks/constructs/rds_database.py" ∧
      s.user_data_script ≠ some "stacks/constructs/s3_bucket.py" ∧
      s.user_data_script ≠ some "stacks/constructs/cloudfront_distribution.py") :
    ("stacks/constructs/rds_database.py" ∈
        genPaths render schemaSrc scriptSrc config ↔ config.rds.isSome = true)
    ∧ ("stacks/constructs/s3_bucket.py" ∈
        genPaths render schemaSrc scriptSrc config ↔
          config.s3_buckets.isEmpty = false)
    ∧ ("stacks/constructs/cloudfront_distribution.py" ∈
        genPaths render schemaSrc scriptSrc config ↔
          config.s3_buckets.any (fun b => b.cloudfront) = true)
    ∧ (config.rds = none →
        (genPaths render schemaSrc scriptSrc { config with rds := some db }).Perm
          ("stacks/constructs/rds_database.py" ::
            genPaths render schemaSrc scriptSrc config)) := by
  refine ⟨⟨?_, ?_⟩, ⟨?_, ?_⟩, ⟨?_, ?_⟩, ?_⟩
  · intro hmem
    cases hr : config.rds with
    | some r => rfl
    | none =>
      exfalso
      cases hs3 : config.s3_buckets.isEmpty <;>
      cases hcf : config.s3_buckets.any (fun b => b.cloudfront) <;>
      cases schemaSrc <;>
      · simp only [genPaths, generate_project, List.map_append, List.mem_append,
          List.mem_map, hr, hs3, hcf] at hmem
        simp at hmem
        exact script_block_no_construct scriptSrc config.services _
          (fun s hs => (hscripts s hs).1) hmem
  · intro h
    simp [genPaths, generate_project, h]
  · intro hmem
    cases he : config.s3_buckets.isEmpty with
    | false => rfl
    | true =>
      exfalso
      cases hrs : config.rds.isSome <;>
      cases hcf : config.s3_buckets.any (fun b => b.cloudfront) <;>
      cases schemaSrc <;>
      · simp only [genPaths, generate_project, List.map_append, List.mem_append,
          List.mem_map, hrs, he, hcf] at hmem
        simp at hmem
        exact script_block_no_construct scriptSrc config.services _
          (fun s hs => (hscripts s hs).2.1) hmem
  · intro h
    simp [genPaths, generate_project, h]
  · intro hmem
    cases hcf : config.s3_buckets.any (fun b => b.cloudfront) with
    | true => rfl
    | false =>
      exfalso
      cases hrs : config.rds.isSome <;>
      cases hs3 : config.s3_buckets.isEmpty <;>
      cases schemaSrc <;>
      · simp only [genPaths, generate_project, List.map_append, List.mem_append,
          List.mem_map, hrs, hs3, hcf] at hmem
        simp at hmem
        exact script_block_no_construct scriptSrc config.services _
          (fun s hs => (hscripts s hs).2.2) hmem
  · intro h
    simp [genPaths, generate_project, h]
  · intro hr
    rw [List.perm_iff_count]
    intro a
    simp only [genPaths, generate_project, hr, List.map_append, List.count_append,
      Option.isSome_some, Option.isSome_none, if_true, if_false, List.map_cons,
      List.map_nil, List.singleton_append, List.count_cons, List.count_nil,
      Bool.false_eq_true, apply_ite (List.map (fun (f : String × String) => f.1))]
    omega

/-- Witness for the amended C4 theorem at `p4`, `db4` and a concrete
renderer. -/
theorem generate_project_conditional_emission_witness :
    (∀ s ∈ p4.services,
      s.user_data_script ≠ some "stacks/constructs/rds_database.py" ∧
      s.user_data_script ≠ some "stacks/constructs/s3_bucket.py" ∧
      s.user_data_script ≠ some "stacks/constructs/cloudfront_distribution.py") ∧
    p4.rds = none ∧
    (("stacks/constructs/rds_database.py" ∈
        genPaths render0 none (fun _ => none) p4 ↔ p4.rds.isSome = true)
     ∧ ("stacks/constructs/s3_bucket.py" ∈
        genPaths render0 none (fun _ => none) p4 ↔ p4.s3_buckets.isEmpty = false)
     ∧ ("stacks/constructs/cloudfront_distribution.py" ∈
        genPaths render0 none (fun _ => none) p4 ↔
          p4.s3_buckets.any (fun b => b.cloudfront) = true)
     ∧ (genPaths render0 none (fun _ => none) { p4 with rds := some db4 }).Perm
        ("stacks/constructs/rds_database.py" ::
          genPaths render0 none (fun _ => none) p4)) := by
  refine ⟨by decide, rfl, ?_⟩
  have h := generate_project_conditional_emission render0 none (fun _ => none)
    p4 db4 (by decide)
  exact ⟨h.1, h.2.1, h.2.2.1, h.2.2.2 rfl⟩
